import Mathlib

/-!
Verification of the django-settings-env URL-to-configuration resolution
engine (`src/django_env/env_wrapper.py`).  The Python code is shallowly
embedded: the environment mapping is an explicit association list, every
resolver is a pure function returning `Except EnvError Record`, and the
relevant parts of `urllib.parse` (urlsplit, parse_qs, unquote_plus,
urlunparse) are re-implemented with structural recursion so that all
definitions evaluate inside the kernel.
-/

/-! ## String utilities mirroring the Python `str` methods used by the code -/

/-- Python `str.split(sep)` for a single-character separator (all splits). -/
def splitOnCharAux (sep : Char) : List Char → List Char → List (List Char)
  | [], acc => [acc.reverse]
  | c :: rest, acc =>
    if c = sep then acc.reverse :: splitOnCharAux sep rest []
    else splitOnCharAux sep rest (c :: acc)

/-- Python `str.split(sep)` on strings; `"".split(c) = [""]` as in Python. -/
def ssplitOnChar (s : String) (sep : Char) : List String :=
  (splitOnCharAux sep s.data []).map String.mk

/-- Python `sep.join(parts)`. -/
def sintercalate (sep : String) : List String → String
  | [] => ""
  | [x] => x
  | x :: y :: xs => x ++ sep ++ sintercalate sep (y :: xs)

/-- Python `c in s` for a single character. -/
def scontains (s : String) (c : Char) : Bool :=
  s.data.contains c

/-- Python `sub in s` for a substring (nonempty patterns). -/
def scontainsSub (s pat : String) : Bool :=
  go s.data pat.data
where
  go : List Char → List Char → Bool
    | [], pat => pat.isEmpty
    | c :: rest, pat => pat.isPrefixOf (c :: rest) || go rest pat

/-- Python `s.startswith(p)`. -/
def sStartsWith (s p : String) : Bool :=
  p.data.isPrefixOf s.data

/-- Python `s.endswith(p)`. -/
def sEndsWith (s p : String) : Bool :=
  p.data.reverse.isPrefixOf s.data.reverse

/-- Python `s[n:]` (character based). -/
def sdrop (s : String) (n : Nat) : String :=
  ⟨s.data.drop n⟩

/-- Python `s[:-n]` written as dropping `n` characters from the right. -/
def sdropRight (s : String) (n : Nat) : String :=
  ⟨(s.data.reverse.drop n).reverse⟩

/-- Python `s.lower()` (ASCII, which covers the grammar the code handles). -/
def sToLower (s : String) : String :=
  ⟨s.data.map Char.toLower⟩

/-- Python `s.upper()` (ASCII). -/
def sToUpper (s : String) : String :=
  ⟨s.data.map Char.toUpper⟩

/-- One step of Python `str.replace` with fuel bounded by the string length. -/
def replaceSubFuel (pat rep : List Char) : Nat → List Char → List Char
  | 0, l => l
  | _ + 1, [] => []
  | fuel + 1, c :: rest =>
    if pat.isPrefixOf (c :: rest) then
      rep ++ replaceSubFuel pat rep fuel (rest.drop (pat.length - 1))
    else
      c :: replaceSubFuel pat rep fuel rest

/-- Python `s.replace(pat, rep)` for a nonempty pattern. -/
def sreplace (s pat rep : String) : String :=
  ⟨replaceSubFuel pat.data rep.data s.data.length s.data⟩

/-- Python `s.partition(sep)[0]`: the part before the first occurrence
(or the whole string when the separator is absent). -/
def pyPartBefore (s : String) (sep : Char) : String :=
  match ssplitOnChar s sep with
  | [] => s
  | x :: _ => x

/-- Python `s.partition(sep)[2]`: the part after the first occurrence
(or the empty string when the separator is absent). -/
def pyPartAfter (s : String) (sep : Char) : String :=
  match ssplitOnChar s sep with
  | [] => ""
  | [_] => ""
  | _ :: rest => sintercalate (String.mk [sep]) rest

/-- Python `s.rpartition(sep)[0]`: the part before the last occurrence. -/
def pyRPartBefore (s : String) (sep : Char) : String :=
  match ssplitOnChar s sep with
  | [] => ""
  | [_] => ""
  | parts => sintercalate (String.mk [sep]) parts.dropLast

/-- Python `s.rpartition(sep)[2]`: the part after the last occurrence
(or the whole string when the separator is absent). -/
def pyRPartAfter (s : String) (sep : Char) : String :=
  match ssplitOnChar s sep with
  | [] => s
  | [_] => s
  | parts => parts.getLastD ""

/-- Python `s.rsplit(sep, 1)`: a one- or two-element list. -/
def pyRSplit1 (s : String) (sep : Char) : List String :=
  match ssplitOnChar s sep with
  | [] => [s]
  | [_] => [s]
  | parts => [sintercalate (String.mk [sep]) parts.dropLast, parts.getLastD ""]

/-- Value of a hex digit, if the character is one. -/
def hexVal (c : Char) : Option Nat :=
  if c.isDigit then some (c.toNat - 48)
  else if 'a' ≤ c ∧ c ≤ 'f' then some (c.toNat - 87)
  else if 'A' ≤ c ∧ c ≤ 'F' then some (c.toNat - 55)
  else none

/-- Percent-decoding of `%XX` escapes; malformed escapes are kept verbatim,
as in `urllib.parse.unquote`. -/
def pctDecode : List Char → List Char
  | [] => []
  | '%' :: a :: b :: rest =>
    match hexVal a, hexVal b with
    | some x, some y => Char.ofNat (16 * x + y) :: pctDecode rest
    | _, _ => '%' :: pctDecode (a :: b :: rest)
  | c :: rest => c :: pctDecode rest

/-- `urllib.parse.unquote_plus`: `+` becomes a space, then `%XX` decodes. -/
def unquote_plus (s : String) : String :=
  ⟨pctDecode (s.data.map fun c => if c = '+' then ' ' else c)⟩

/-- Python `str.isdigit()` restricted to a nonempty all-ASCII-digit check. -/
def sIsDigits (s : String) : Bool :=
  !s.data.isEmpty && s.data.all Char.isDigit

/-- Decimal digits to a number, most significant first. -/
def digitsToNat : List Char → Nat → Nat
  | [], acc => acc
  | c :: r, acc => digitsToNat r (acc * 10 + (c.toNat - 48))

/-- `Env._int` on a string value: `int(val)` when nonempty and all digits,
otherwise `0`. -/
def pyInt (s : String) : Nat :=
  if sIsDigits s then digitsToNat s.data 0 else 0

/-- `Env.is_true` on a string value: false for `''` and `'0'`, otherwise
true exactly when the value starts with one of the truthy prefixes. -/
def is_true (v : String) : Bool :=
  if v = "" ∨ v = "0" then false
  else ["T", "t", "1", "on", "ok", "Y", "y", "en"].any fun t => sStartsWith v t

/-! ## Embedding of `urllib.parse.urlsplit` and its accessors -/

/-- Characters allowed in a URL scheme after the first letter. -/
def schemeChar (c : Char) : Bool :=
  c.isAlphanum || c = '+' || c = '-' || c = '.'

/-- Result of `urllib.parse.urlparse` (params merged into path, unused). -/
structure Url where
  scheme : String
  netloc : String
  path : String
  query : String
  fragment : String
deriving Repr, DecidableEq

/-- `urllib.parse.urlparse`: scheme split at the first `:` when the head is
a letter followed by scheme characters; `//`-led authority up to the first
`/`, `?` or `#`; then fragment at the first `#`; then query at the first
`?`. -/
def urlparse (s : String) : Url :=
  let before := pyPartBefore s ':'
  let schemeOk :=
    scontains s ':' && before ≠ "" &&
    (match before.data with
     | [] => false
     | c :: _ => c.isAlpha) &&
    before.data.all schemeChar
  let scheme := if schemeOk then sToLower before else ""
  let rest := if schemeOk then pyPartAfter s ':' else s
  let hasNetloc := sStartsWith rest "//"
  let afterSlashes := if hasNetloc then sdrop rest 2 else rest
  let netlocChars :=
    if hasNetloc then
      afterSlashes.data.takeWhile fun c => c ≠ '/' && c ≠ '?' && c ≠ '#'
    else []
  let netloc : String := ⟨netlocChars⟩
  let rest2 : String :=
    if hasNetloc then
      ⟨afterSlashes.data.dropWhile fun c => c ≠ '/' && c ≠ '?' && c ≠ '#'⟩
    else rest
  let rest3 := if scontains rest2 '#' then pyPartBefore rest2 '#' else rest2
  let fragment := if scontains rest2 '#' then pyPartAfter rest2 '#' else ""
  let path := if scontains rest3 '?' then pyPartBefore rest3 '?' else rest3
  let query := if scontains rest3 '?' then pyPartAfter rest3 '?' else ""
  ⟨scheme, netloc, path, query, fragment⟩

/-- Errors surfaced by the resolvers: the required-variable error raised by
`_check_var`, a `KeyError` from indexing a registry dict, the explicit
invalid-scheme errors of the email/search resolvers, and the `ValueError`
raised by `urllib` when a URL's port is not a valid port number. -/
inductive EnvError where
  | missingVar (v : String)
  | keyError (k : String)
  | invalidScheme (s : String)
  | valueError (s : String)
deriving Repr, DecidableEq

/-- The `(hostname, port-string)` pair of `urllib`'s `_hostinfo`: userinfo
stripped at the last `@`, bracketed IPv6 hosts honoured, port taken after
the colon (absent when empty). -/
def Url.hostPort (u : Url) : String × Option String :=
  let hostinfo := pyRPartAfter u.netloc '@'
  if scontains hostinfo '[' then
    let bracketed := pyPartAfter hostinfo '['
    let host := pyPartBefore bracketed ']'
    let afterBr := pyPartAfter bracketed ']'
    let port := pyPartAfter afterBr ':'
    (host, if port = "" then none else some port)
  else
    let host := pyPartBefore hostinfo ':'
    let port := pyPartAfter hostinfo ':'
    (host, if port = "" then none else some port)

/-- `url.hostname`: `None` when empty, otherwise lower-cased up to the
first `%` (a scoped-IPv6 zone suffix keeps its case). -/
def Url.hostname (u : Url) : Option String :=
  let h := u.hostPort.1
  if h = "" then none
  else
    some (sToLower (pyPartBefore h '%') ++
      (if scontains h '%' then "%" ++ pyPartAfter h '%' else ""))

/-- The raw port string, when present. -/
def Url.portStr (u : Url) : Option String :=
  u.hostPort.2

/-- `url.port`: parsed port, or the `ValueError` that accessing the
property raises on a non-numeric or out-of-range port. -/
def Url.portE (u : Url) : Except EnvError (Option Nat) :=
  match u.portStr with
  | none => .ok none
  | some s =>
    if sIsDigits s then
      if digitsToNat s.data 0 ≤ 65535 then .ok (some (digitsToNat s.data 0))
      else .error (.valueError s)
    else .error (.valueError s)

/-- Whether accessing `url.port` would succeed. -/
def Url.portOk (u : Url) : Bool :=
  match u.portE with
  | .ok _ => true
  | .error _ => false

/-- `url.port` as a plain option (callers that guard with `portOk`). -/
def Url.port (u : Url) : Option Nat :=
  match u.portE with
  | .ok p => p
  | .error _ => none

/-- The userinfo part before the last `@` of the netloc, when present. -/
def Url.userinfo (u : Url) : Option String :=
  if scontains u.netloc '@' then some (pyRPartBefore u.netloc '@') else none

/-- `url.username`: part of the userinfo before the first `:`. -/
def Url.username (u : Url) : Option String :=
  u.userinfo.map fun ui => pyPartBefore ui ':'

/-- `url.password`: part of the userinfo after the first `:`, `None` when
the userinfo holds no colon. -/
def Url.password (u : Url) : Option String :=
  u.userinfo.bind fun ui =>
    if scontains ui ':' then some (pyPartAfter ui ':') else none

/-- `urllib.parse.urlunparse(('http', netloc, path, '', '', ''))` as used
by the search resolver: `http` is a netloc-using scheme, so `//` is always
emitted unless the netloc is empty and the path itself starts with `//`. -/
def urlunsplitHttp (netloc path : String) : String :=
  let p :=
    if netloc ≠ "" ∨ ¬sStartsWith path "//" then
      "//" ++ netloc ++
        (if path ≠ "" ∧ ¬sStartsWith path "/" then "/" ++ path else path)
    else path
  "http:" ++ p

/-! ## Query-string parsing (`urllib.parse.parse_qs`) -/

/-- `urllib.parse.parse_qsl` with default arguments: split on `&`, drop
empty chunks, drop chunks without `=` and chunks with an empty value,
percent-decode names and values. -/
def parse_qsl (qs : String) : List (String × String) :=
  (ssplitOnChar qs '&').filterMap fun nv =>
    if nv = "" then none
    else if scontains nv '=' then
      let n := pyPartBefore nv '='
      let v := pyPartAfter nv '='
      if v ≠ "" then some (unquote_plus n, unquote_plus v) else none
    else none

/-- Append a value to a key's list, preserving first-appearance order. -/
def qsInsert : List (String × List String) → String → String → List (String × List String)
  | [], k, v => [(k, [v])]
  | (k', vs) :: rest, k, v =>
    if k' = k then (k', vs ++ [v]) :: rest else (k', vs) :: qsInsert rest k v

/-- `urllib.parse.parse_qs`: values grouped per key. -/
def parse_qs (qs : String) : List (String × List String) :=
  (parse_qsl qs).foldl (fun acc p => qsInsert acc p.1 p.2) []

/-! ## Configuration records -/

/-- A leaf value of a configuration record: the Python values the resolvers
store (strings, ints, booleans, string lists, `None`, and the nested
`OPTIONS` sub-mapping). -/
inductive Value where
  | str (s : String)
  | int (n : Nat)
  | bool (b : Bool)
  | strList (l : List String)
  | none
  | opts (l : List (String × Value))

/-- A configuration record: an insertion-ordered dict. -/
abbrev Record := List (String × Value)

/-- Dict lookup. -/
def dget : Record → String → Option Value
  | [], _ => Option.none
  | (k', v) :: r, k => if k' = k then some v else dget r k

/-- Dict update `d[k] = v`: replace in place or append. -/
def dset : Record → String → Value → Record
  | [], k, v => [(k, v)]
  | (k', v') :: r, k, v =>
    if k' = k then (k, v) :: r else (k', v') :: dset r k v

/-- Dict deletion `del d[k]`. -/
def ddel : Record → String → Record
  | [], _ => []
  | (k', v') :: r, k => if k' = k then r else (k', v') :: ddel r k

/-- Python truthiness of the record values the code tests. -/
def vTruthy : Value → Bool
  | .str s => s ≠ ""
  | .int n => n ≠ 0
  | .bool b => b
  | .strList l => !l.isEmpty
  | .none => false
  | .opts l => !l.isEmpty

/-- Render an optional string the way a Python f-string renders it
(`None` prints as `"None"`). -/
def pyOptStr : Option String → String
  | some s => s
  | Option.none => "None"

/-! ## Scheme registries (the module-level tables of `env_wrapper.py`) -/

/-- `DB_SCHEMES`. -/
def DB_SCHEMES (s : String) : Option String :=
  if s = "postgres" ∨ s = "postgresql" ∨ s = "psql" ∨ s = "pgsql" then
    some "django.db.backends.postgresql"
  else if s = "postgis" then some "django.contrib.gis.db.backends.postgis"
  else if s = "mysql" ∨ s = "mysql2" then some "django.db.backends.mysql"
  else if s = "mysql-connector" then some "mysql.connector.django"
  else if s = "mysqlgis" then some "django.contrib.gis.db.backends.mysql"
  else if s = "mssql" ∨ s = "pyodbc" then some "sql_server.pyodbc"
  else if s = "oracle" then some "django.db.backends.oracle"
  else if s = "redshift" then some "django_redshift_backend"
  else if s = "spatialite" then some "django.contrib.gis.db.backends.spatialite"
  else if s = "sqlite" then some "django.db.backends.sqlite3"
  else if s = "ldap" then some "ldapdb.backends.ldap"
  else none

/-- `_DB_BASE_OPTIONS`. -/
def DB_BASE_OPTIONS : List String :=
  ["CONN_MAX_AGE", "ATOMIC_REQUESTS", "AUTOCOMMIT", "SSLMODE", "TEST",
   "READ_ONLY", "READONLY", "HTTP_METHODS", "HTTP_WRITE_PATHS", "HTTP_WRITE_STICKY"]

/-- `CACHE_SCHEMES`. -/
def CACHE_SCHEMES (s : String) : Option String :=
  if s = "dbcache" then some "django.core.cache.backends.db.DatabaseCache"
  else if s = "dummycache" then some "django.core.cache.backends.dummy.DummyCache"
  else if s = "filecache" then some "django.core.cache.backends.filebased.FileBasedCache"
  else if s = "locmemcache" then some "django.core.cache.backends.locmem.LocMemCache"
  else if s = "memcache" then some "django.core.cache.backends.memcached.MemcachedCache"
  else if s = "pymemcache" then some "django.core.cache.backends.memcached.PyLibMCCache"
  else if s = "rediscache" ∨ s = "redis" then some "django_redis.cache.RedisCache"
  else none

/-- `_CACHE_BASE_OPTIONS`. -/
def CACHE_BASE_OPTIONS : List String :=
  ["TIMEOUT", "KEY_PREFIX", "VERSION", "KEY_FUNCTION", "BINARY"]

/-- `EMAIL_SCHEMES`. -/
def EMAIL_SCHEMES (s : String) : Option String :=
  if s = "smtp" ∨ s = "smtps" ∨ s = "smtp+tls" ∨ s = "smtp+ssl" then
    some "django.core.mail.backends.smtp.EmailBackend"
  else if s = "consolemail" then some "django.core.mail.backends.console.EmailBackend"
  else if s = "filemail" then some "django.core.mail.backends.filebased.EmailBackend"
  else if s = "memorymail" then some "django.core.mail.backends.locmem.EmailBackend"
  else if s = "dummymail" then some "django.core.mail.backends.dummy.EmailBackend"
  else if s = "amazonses" ∨ s = "amazon-ses" then some "django_ses.SESBackend"
  else none

/-- `_EMAIL_BASE_OPTIONS`. -/
def EMAIL_BASE_OPTIONS : List String :=
  ["EMAIL_USE_TLS", "EMAIL_USE_SSL"]

/-- `SEARCH_SCHEMES`. -/
def SEARCH_SCHEMES (s : String) : Option String :=
  if s = "elasticsearch" then
    some "haystack.backends.elasticsearch_backend.ElasticsearchSearchEngine"
  else if s = "elasticsearch2" then
    some "haystack.backends.elasticsearch2_backend.Elasticsearch2SearchEngine"
  else if s = "solr" then some "haystack.backends.solr_backend.SolrEngine"
  else if s = "whoosh" then some "haystack.backends.whoosh_backend.WhooshEngine"
  else if s = "xapian" then some "haystack.backends.xapian_backend.XapianEngine"
  else if s = "simple" then some "haystack.backends.simple_backend.SimpleEngine"
  else none

/-- An entry of `QUEUE_SCHEMES`: backend id plus optional default port. -/
structure QueueConf where
  backend : String
  defaultPort : Option Nat
deriving Repr, DecidableEq

/-- `QUEUE_SCHEMES`. -/
def QUEUE_SCHEMES (s : String) : Option QueueConf :=
  if s = "rabbitmq" then some ⟨"mq.backends.rabbitmq_backend.create_backend", some 5672⟩
  else if s = "redis" then some ⟨"django_redis.cache.RedisCache", some 6379⟩
  else if s = "amazonsqs" ∨ s = "amazon-sqs" then
    some ⟨"mq.backends.sqs_backend.create_backend", none⟩
  else none

/-- `_QUEUE_BASE_OPTIONS` (empty in the base configuration). -/
def QUEUE_BASE_OPTIONS : List String := []

/-! ## The environment mapping and the resolution facade -/

/-- The string-to-string environment mapping. -/
abbrev Env := List (String × String)

/-- `Env.get(var, default)` restricted to the mapping itself. -/
def envGet : Env → String → Option String
  | [], _ => none
  | (k, v) :: r, var => if k = var then some v else envGet r var

/-- `Env._check_var(var, default)`: an empty name short-circuits to the
empty string; otherwise the environment value (falling back to the
default) must be non-falsy or the required-variable error is raised. -/
def checkVar (e : Env) (var : String) (default : Option String) : Except EnvError String :=
  if var = "" then .ok ""
  else
    match (match envGet e var with | some s => some s | Option.none => default) with
    | Option.none => .error (.missingVar var)
    | some u => if u = "" then .error (.missingVar var) else .ok u

/-! ## Database resolver (`Env.database_url`) -/

/-- The decoded path of the database resolver, including the `sqlite`
`:memory:` normalization and the `ldap` authority synthesis (which
accesses `url.port` and can therefore raise). -/
def dbPath (url : Url) : Except EnvError String :=
  if url.scheme = "sqlite" ∧ unquote_plus (pyPartBefore (sdrop url.path 1) '?') = "" then
    .ok ":memory:"
  else if url.scheme = "ldap" then
    match url.portE with
    | .error err => .error err
    | .ok p =>
      .ok ("ldap://" ++ pyOptStr url.hostname ++
        (match p with
         | some n => if n ≠ 0 then ":" ++ toString n else ""
         | Option.none => ""))
  else .ok (unquote_plus (pyPartBefore (sdrop url.path 1) '?'))

/-- The percent-encoded-host correction of the database resolver: when the
lowered hostname contains `%2f`, re-derive the host from the netloc. -/
def dbHostname (url : Url) : String :=
  let h0 := match url.hostname with | some h => h | Option.none => ""
  if scontainsSub (sToLower h0) "%2f" then
    let h1 := url.netloc
    let h2 := if scontains h1 '@' then pyRPartAfter h1 '@' else h1
    let h3 := if scontains h2 ':' then pyPartBefore h2 ':' else h2
    sreplace (sreplace h3 "%2f" "/") "%2F" "/"
  else h0

/-- `DB_SCHEMES[url.scheme] if engine is None else engine` — the registry
indexing raises a `KeyError` for an unknown scheme. -/
def dbEngine (engine : Option String) (scheme : String) : Except EnvError String :=
  match engine with
  | some e => .ok e
  | Option.none =>
    match DB_SCHEMES scheme with
    | some d => .ok d
    | Option.none => .error (.keyError scheme)

/-- The `PORT` field value: stringified for a truthy port under the oracle
engine, the integer otherwise, and `''` when the port is falsy. -/
def dbPortField (p : Option Nat) (eng : String) : Value :=
  match p with
  | some n =>
    if n ≠ 0 ∧ eng = "django.db.backends.oracle" then .str (toString n)
    else if n ≠ 0 then .int n
    else .str ""
  | Option.none => .str ""

/-- Python `str()` of the scalar record values the code stringifies. -/
def vStr : Value → String
  | .str s => s
  | .int n => toString n
  | .bool b => if b then "True" else "False"
  | .none => "None"
  | .strList _ => ""
  | .opts _ => ""

/-- One step of the database query-option partitioning: recognized keys
promote upper-cased as strings, the rest become opaque integer-coerced
options. -/
def dbQsStep (cd : Record × Record) (kv : String × List String) : Record × Record :=
  let v0 := kv.2.headD ""
  if DB_BASE_OPTIONS.contains (sToUpper kv.1) then
    (dset cd.1 (sToUpper kv.1) (.str v0), cd.2)
  else (cd.1, dset cd.2 kv.1 (.int (pyInt v0)))

/-- The database query-option loop. -/
def dbApplyQs (ps : List (String × List String)) (init : Record × Record) : Record × Record :=
  ps.foldl dbQsStep init

/-- The body of `Env.database_url` after the `sqlite://:memory` shortcut. -/
def dbBuild (url : Url) (engine : Option String)
    (options : Option (List (String × Value))) : Except EnvError Record :=
  match dbPath url with
  | .error err => .error err
  | .ok path =>
    let hostname := dbHostname url
    match dbEngine engine url.scheme with
    | .error err => .error err
    | .ok eng =>
      match url.portE with
      | .error err => .error err
      | .ok uport =>
        let config : Record :=
          [("NAME", .str path),
           ("USER", .str (match url.username with | some s => s | Option.none => "")),
           ("PASSWORD", .str (match url.password with | some s => s | Option.none => "")),
           ("HOST", .str hostname),
           ("PORT", dbPortField uport eng)]
        let config :=
          if url.scheme = "postgres" ∧ sStartsWith path "/" then
            let parts := pyRSplit1 path '/'
            dset (dset config "HOST" (.str (parts.headD ""))) "NAME" (.str (parts.getLastD ""))
          else if url.scheme = "oracle" then
            let config :=
              if path = "" then
                dset (dset config "NAME" ((dget config "HOST").getD (.str ""))) "HOST" (.str "")
              else config
            match dget config "PORT" with
            | some pv =>
              if vTruthy pv then dset config "PORT" (.str (vStr pv)) else ddel config "PORT"
            | Option.none => config
          else config
        let (config, db_options) :=
          if url.query ≠ "" then dbApplyQs (parse_qs url.query) (config, [])
          else (config, [])
        let db_options :=
          if url.query ≠ "" then
            match dget db_options "currentSchema" with
            | some cs =>
              if eng = "django.contrib.gis.db.backends.postgis" ∨
                  eng = "django.db.backends.postgresql_psycopg2" ∨
                  eng = "django_redshift_backend" then
                dset (ddel db_options "currentSchema") "options"
                  (.str ("-c search_path=" ++ vStr cs))
              else db_options
            | Option.none => db_options
          else db_options
        let (config, db_options) :=
          match options with
          | some opts =>
            opts.foldl (fun (cd : Record × Record) (kv : String × Value) =>
              if DB_BASE_OPTIONS.contains (sToUpper kv.1) then
                (dset cd.1 (sToUpper kv.1) kv.2, cd.2)
              else (cd.1, dset cd.2 kv.1 kv.2)) (config, db_options)
          | Option.none => (config, db_options)
        let config :=
          if !db_options.isEmpty then
            dset config "OPTIONS"
              (.opts (db_options.foldl (fun a kv => dset a (sToUpper kv.1) kv.2) []))
          else config
        let config := if eng ≠ "" then dset config "ENGINE" (.str eng) else config
        .ok config

/-- `Env.database_url` on an already-resolved URL string: the literal
`sqlite://:memory` shortcut, then general parsing. -/
def dbFromString (urlStr : String) (engine : Option String)
    (options : Option (List (String × Value))) : Except EnvError Record :=
  if urlStr = "sqlite://:memory" then
    .ok [("ENGINE", .str "django.db.backends.sqlite3"), ("NAME", .str ":memory:")]
  else dbBuild (urlparse urlStr) engine options

/-- `Env.database_url`. -/
def database_url (e : Env) (var : String) (default : Option String)
    (engine : Option String) (options : Option (List (String × Value))) :
    Except EnvError Record :=
  match checkVar e var default with
  | .error err => .error err
  | .ok u => dbFromString u engine options

/-! ## Cache resolver (`Env.cache_url`) -/

/-- `backend if backend else CACHE_SCHEMES[url.scheme]`: a truthy override
short-circuits; otherwise the registry is indexed (raising on an unknown
scheme). -/
def cacheBackend (backend : Option String) (scheme : String) : Except EnvError String :=
  match backend with
  | some b =>
    if b ≠ "" then .ok b
    else
      match CACHE_SCHEMES scheme with
      | some d => .ok d
      | Option.none => .error (.keyError scheme)
  | Option.none =>
    match CACHE_SCHEMES scheme with
    | some d => .ok d
    | Option.none => .error (.keyError scheme)

/-- One step of the cache query-option partitioning: both promoted and
opaque values stay strings, keys are upper-cased. -/
def cacheQsStep (cd : Record × Record) (kv : String × List String) : Record × Record :=
  let key := sToUpper kv.1
  let v0 := kv.2.headD ""
  if CACHE_BASE_OPTIONS.contains key then (dset cd.1 key (.str v0), cd.2)
  else (cd.1, dset cd.2 key (.str v0))

/-- The cache query-option loop. -/
def cacheApplyQs (ps : List (String × List String)) (init : Record × Record) : Record × Record :=
  ps.foldl cacheQsStep init

/-- The trailing steps of `Env.cache_url`: the query-option loop, the
explicit `options` merge (upper-cased), and the unconditional `OPTIONS`
assignment. -/
def cacheTail (url : Url) (options : Option (List (String × Value))) (config : Record) : Record :=
  let (config, cache_options) :=
    if url.query ≠ "" then cacheApplyQs (parse_qs url.query) (config, [])
    else (config, [])
  let cache_options :=
    match options with
    | some opts => opts.foldl (fun a (kv : String × Value) => dset a (sToUpper kv.1) kv.2) cache_options
    | Option.none => cache_options
  dset config "OPTIONS" (.opts cache_options)

/-- The body of `Env.cache_url` on a parsed URL. -/
def cacheBuild (url : Url) (backend : Option String)
    (options : Option (List (String × Value))) : Except EnvError Record :=
  match cacheBackend backend url.scheme with
  | .error err => .error err
  | .ok bk =>
    let locParts := ssplitOnChar url.netloc ','
    let locVal : Value :=
      if locParts.length = 1 then .str (locParts.headD "") else .strList locParts
    let config : Record := [("BACKEND", .str bk), ("LOCATION", locVal)]
    let config :=
      if url.scheme = "filecache" then
        dset config "LOCATION" (.str (url.netloc ++ url.path))
      else config
    let config :=
      if url.path ≠ "" ∧
          (url.scheme = "unix" ∨ url.scheme = "memcache" ∨ url.scheme = "pymemcache") then
        dset config "LOCATION" (.str ("unix:" ++ url.path))
      else if sStartsWith url.scheme "redis" then
        let sch := if url.hostname.isSome then sreplace url.scheme "cache" "" else "unix"
        let locations := (ssplitOnChar url.netloc ',').map fun loc => sch ++ "://" ++ loc ++ url.path
        dset config "LOCATION"
          (if locations.length = 1 then .str (locations.headD "") else .strList locations)
      else config
    .ok (cacheTail url options config)

/-- `Env.cache_url`. -/
def cache_url (e : Env) (var : String) (default : Option String)
    (backend : Option String) (options : Option (List (String × Value))) :
    Except EnvError Record :=
  match checkVar e var default with
  | .error err => .error err
  | .ok u => cacheBuild (urlparse u) backend options

/-! ## Email resolver (`Env.email_url`) -/

/-- `EMAIL_BACKEND`: a truthy override wins; otherwise the registry is
consulted, raising the explicit invalid-scheme error on a miss. -/
def emailBackend (backend : Option String) (scheme : String) : Except EnvError String :=
  match backend with
  | some b =>
    if b ≠ "" then .ok b
    else
      match EMAIL_SCHEMES scheme with
      | some d => .ok d
      | Option.none => .error (.invalidScheme scheme)
  | Option.none =>
    match EMAIL_SCHEMES scheme with
    | some d => .ok d
    | Option.none => .error (.invalidScheme scheme)

/-- One step of the email query-option partitioning: every value is
integer-coerced, keys are upper-cased, recognized keys promote to the top
level. -/
def emailQsStep (cd : Record × Record) (kv : String × List String) : Record × Record :=
  let key := sToUpper kv.1
  let v0 := kv.2.headD ""
  if EMAIL_BASE_OPTIONS.contains key then (dset cd.1 key (.int (pyInt v0)), cd.2)
  else (cd.1, dset cd.2 key (.int (pyInt v0)))

/-- The email query-option loop. -/
def emailApplyQs (ps : List (String × List String)) (init : Record × Record) : Record × Record :=
  ps.foldl emailQsStep init

/-- The trailing steps of `Env.email_url`: the query-option loop, the
explicit `options` merge, and the conditional upper-cased `OPTIONS`
assignment. -/
def emailTail (url : Url) (options : Option (List (String × Value))) (config : Record) : Record :=
  let (config, email_options) :=
    if url.query ≠ "" then emailApplyQs (parse_qs url.query) (config, [])
    else (config, [])
  let email_options :=
    match options with
    | some opts => opts.foldl (fun a (kv : String × Value) => dset a kv.1 kv.2) email_options
    | Option.none => email_options
  if !email_options.isEmpty then
    dset config "OPTIONS"
      (.opts (email_options.foldl (fun a kv => dset a (sToUpper kv.1) kv.2) []))
  else config

/-- The body of `Env.email_url` on a parsed URL. -/
def emailBuild (url : Url) (backend : Option String)
    (options : Option (List (String × Value))) : Except EnvError Record :=
  let path1 := unquote_plus (pyPartBefore (sdrop url.path 1) '?')
  match url.portE with
  | .error err => .error err
  | .ok uport =>
    let config : Record :=
      [("EMAIL_FILE_PATH", .str path1),
       ("EMAIL_HOST_USER", match url.username with | some s => .str s | Option.none => .none),
       ("EMAIL_HOST_PASSWORD", match url.password with | some s => .str s | Option.none => .none),
       ("EMAIL_HOST", match url.hostname with | some s => .str s | Option.none => .none),
       ("EMAIL_PORT", .int (uport.getD 0))]
    match emailBackend backend url.scheme with
    | .error err => .error err
    | .ok bk =>
      let config := dset config "EMAIL_BACKEND" (.str bk)
      let config :=
        if url.scheme = "smtps" ∨ url.scheme = "smtp+tls" then
          dset config "EMAIL_USE_TLS" (.bool true)
        else if url.scheme = "smtp+ssl" then
          dset config "EMAIL_USE_SSL" (.bool true)
        else config
      .ok (emailTail url options config)

/-- `Env.email_url`. -/
def email_url (e : Env) (var : String) (default : Option String)
    (backend : Option String) (options : Option (List (String × Value))) :
    Except EnvError Record :=
  match checkVar e var default with
  | .error err => .error err
  | .ok u => emailBuild (urlparse u) backend options

/-! ## Search resolver (`Env.search_url`) -/

/-- Lookup in a parsed query-parameter mapping. -/
def qsGet : List (String × List String) → String → Option (List String)
  | [], _ => Option.none
  | (k, vs) :: r, key => if k = key then some vs else qsGet r key

/-- The `if K in params.keys(): config[K] = f(params[K][0])` pattern the
search resolver repeats for each promoted parameter. -/
def promoteOpt (params : List (String × List String)) (K : String)
    (f : List String → Value) (config : Record) : Record :=
  match qsGet params K with
  | some vs => dset config K (f vs)
  | Option.none => config

/-- The body of `Env.search_url` on a parsed URL. -/
def searchBuild (url : Url) (engine : Option String)
    (options : Option (List (String × Value))) : Except EnvError Record :=
  let path1 := unquote_plus (pyPartBefore (sdrop url.path 1) '?')
  match SEARCH_SCHEMES url.scheme with
  | Option.none => .error (.invalidScheme url.scheme)
  | some reg =>
    let eng := match engine with
      | some e => if e ≠ "" then e else reg
      | Option.none => reg
    let config : Record := [("ENGINE", .str eng)]
    let params := if url.query ≠ "" then parse_qs url.query else []
    let config := promoteOpt params "EXCLUDED_INDEXES"
      (fun vs => .strList (ssplitOnChar (vs.headD "") ',')) config
    let config := promoteOpt params "INCLUDE_SPELLING"
      (fun vs => .bool (is_true (vs.headD ""))) config
    let config := promoteOpt params "BATCH_SIZE"
      (fun vs => .int (pyInt (vs.headD ""))) config
    if url.scheme = "simple" then .ok config
    else
      let config :=
        if url.scheme = "solr" ∨ url.scheme = "elasticsearch" ∨ url.scheme = "elasticsearch2" then
          promoteOpt params "KWARGS" (fun vs => .str (vs.headD "")) config
        else config
      let path2 := if sEndsWith path1 "/" then sdropRight path1 1 else path1
      if url.scheme = "solr" then
        let config := dset config "URL" (.str (urlunsplitHttp url.netloc path2))
        let config := promoteOpt params "TIMEOUT" (fun vs => .int (pyInt (vs.headD ""))) config
        .ok config
      else
        let config :=
          if sStartsWith url.scheme "elasticsearch" then
            let split := pyRSplit1 path2 '/'
            let pre := if split.length > 1 then sintercalate "/" split.dropLast else ""
            let idx := if split.length > 1 then split.getLastD "" else split.headD ""
            let config := dset config "URL" (.str (urlunsplitHttp url.netloc pre))
            let config := promoteOpt params "TIMEOUT" (fun vs => .int (pyInt (vs.headD ""))) config
            dset config "INDEX_NAME" (.str idx)
          else
            let config := dset config "PATH" (.str ("/" ++ path2))
            if url.scheme = "whoosh" then
              promoteOpt params "POST_LIMIT" (fun vs => .int (pyInt (vs.headD "")))
                (promoteOpt params "STORAGE" (fun vs => .str (vs.headD "")) config)
            else if url.scheme = "xapian" then
              promoteOpt params "FLAGS" (fun vs => .str (vs.headD "")) config
            else config
        let config :=
          match options with
          | some opts => opts.foldl (fun a (kv : String × Value) => dset a (sToUpper kv.1) kv.2) config
          | Option.none => config
        .ok config

/-- `Env.search_url`. -/
def search_url (e : Env) (var : String) (default : Option String)
    (engine : Option String) (options : Option (List (String × Value))) :
    Except EnvError Record :=
  match checkVar e var default with
  | .error err => .error err
  | .ok u => searchBuild (urlparse u) engine options

/-! ## Queue resolver (`Env.queue_url`) -/

/-- One step of the queue query-option partitioning (`_QUEUE_BASE_OPTIONS`
is empty, so everything becomes an opaque string option). -/
def queueQsStep (cd : Record × Record) (kv : String × List String) : Record × Record :=
  let key := sToUpper kv.1
  let v0 := kv.2.headD ""
  if QUEUE_BASE_OPTIONS.contains key then (dset cd.1 key (.str v0), cd.2)
  else (cd.1, dset cd.2 key (.str v0))

/-- The queue query-option loop. -/
def queueApplyQs (ps : List (String × List String)) (init : Record × Record) : Record × Record :=
  ps.foldl queueQsStep init

/-- The userinfo step of `Env.queue_url`: `USER`/`PASSWORD` when the URL
carries a truthy username. -/
def queueUserStep (url : Url) (config : Record) : Record :=
  match url.username with
  | some un =>
    if un ≠ "" then
      dset (dset config "USER" (.str un)) "PASSWORD"
        (.str (match url.password with | some pw => pw | Option.none => ""))
    else config
  | Option.none => config

/-- The final steps of `Env.queue_url`: the query-option loop, the
explicit `options` merge, and the conditional upper-cased `OPTIONS`
assignment. -/
def queueFinish (url : Url) (options : Option (List (String × Value))) (config : Record) : Record :=
  let (config, queue_options) :=
    if url.query ≠ "" then queueApplyQs (parse_qs url.query) (config, [])
    else (config, [])
  let queue_options :=
    match options with
    | some opts => opts.foldl (fun a (kv : String × Value) => dset a kv.1 kv.2) queue_options
    | Option.none => queue_options
  if !queue_options.isEmpty then
    dset config "OPTIONS"
      (.opts (queue_options.foldl (fun a kv => dset a (sToUpper kv.1) kv.2) []))
  else config

/-- The trailing steps of `Env.queue_url` (lines 583-604 of the source). -/
def queueTail (url : Url) (options : Option (List (String × Value))) (config : Record) : Record :=
  queueFinish url options (queueUserStep url config)

/-- The body of `Env.queue_url` on a parsed URL.  Note the initial
`QUEUE_BACKEND` assignment transcribes the source's
`backend if backend is None else conf['backend']` verbatim: with no
override the field is `None`; with an override the registry entry is
indexed (and a `KeyError` raised when the scheme is not registered). -/
def queueBuild (url : Url) (backend : Option String)
    (options : Option (List (String × Value))) : Except EnvError Record :=
  let path1 := unquote_plus (pyPartBefore (sdrop url.path 1) '?')
  let conf := QUEUE_SCHEMES url.scheme
  match url.portE with
  | .error err => .error err
  | .ok uport =>
    let port : Option Nat :=
      match uport with
      | some p => if p ≠ 0 then some p else conf.bind QueueConf.defaultPort
      | Option.none => conf.bind QueueConf.defaultPort
    let qbE : Except EnvError Value :=
      match backend with
      | Option.none => .ok Value.none
      | some _ =>
        match conf with
        | some c => .ok (.str c.backend)
        | Option.none => .error (.keyError "backend")
    match qbE with
    | .error err => .error err
    | .ok qb =>
      let config : Record := [("QUEUE_BACKEND", qb)]
      let config :=
        if sStartsWith url.scheme "amazon" then
          let endpoint := "https://" ++ pyOptStr url.hostname ++
            (match port with
             | some p => if p ≠ 0 then ":" ++ toString p else ""
             | Option.none => "")
          dset config "AWS_SQS_ENDPOINT" (.str endpoint)
        else if sStartsWith url.scheme "rabbit" then
          let rb : Value :=
            match backend with
            | some b => if b ≠ "" then .str b else qb
            | Option.none => qb
          let config : Record :=
            [("QUEUE_BACKEND", rb),
             ("RABBITMQ_HOST", .str (match url.hostname with | some h => h | Option.none => "")),
             ("RABBITMQ_PORT", match port with | some p => .int p | Option.none => Value.none)]
          if url.hostname.isNone then
            dset (dset (dset config
              "QUEUE_LOCATION" (.str ("unix://" ++ url.netloc ++ url.path)))
              "RABBITMQ_LOCATION" (.str ("unix://" ++ url.netloc ++ url.path)))
              "RABBITMQ_PORT" (.str "")
          else config
        else if url.scheme = "redis" then
          let sch := if url.hostname.isSome then url.scheme else "unix"
          let locations := (ssplitOnChar url.netloc ',').map fun loc => sch ++ "://" ++ loc ++ url.path
          let noBackend := match backend with
            | Option.none => true
            | some b => b = ""
          if noBackend then
            dset config "QUEUE_LOCATION"
              (if locations.length = 1 then .str (locations.headD "") else .strList locations)
          else config
        else
          dset (dset (dset config "PATH" (.str path1))
            "HOST" (match url.hostname with | some h => .str h | Option.none => Value.none))
            "PORT" (match port with
                    | some p => if p ≠ 0 then .int p else .str ""
                    | Option.none => .str "")
      .ok (queueTail url options config)

/-- `Env.queue_url`. -/
def queue_url (e : Env) (var : String) (default : Option String)
    (backend : Option String) (options : Option (List (String × Value))) :
    Except EnvError Record :=
  match checkVar e var default with
  | .error err => .error err
  | .ok u => queueBuild (urlparse u) backend options

/-- Whether an error is the required-variable error of `_check_var`. -/
def errIsMissing : EnvError → Bool
  | .missingVar _ => true
  | _ => false

/-- Whether a resolver outcome is the required-variable error. -/
def isMissingErr : Except EnvError Record → Bool
  | .error e => errIsMissing e
  | .ok _ => false

/-! ## Dictionary and facade lemmas -/

/-- `dset` followed by lookup of the same key. -/
theorem dget_dset_self (r : Record) (k : String) (v : Value) :
    dget (dset r k v) k = some v := by
  induction r with
  | nil => simp [dget, dset]
  | cons p r ih =>
    by_cases h : p.1 = k
    · simp [dget, dset, h]
    · simp [dget, dset, h, ih]

/-- `dset` leaves other keys untouched. -/
theorem dget_dset_ne (r : Record) (k' k : String) (v : Value) (h : k' ≠ k) :
    dget (dset r k' v) k = dget r k := by
  induction r with
  | nil => simp [dget, dset, h]
  | cons p r ih =>
    by_cases hp : p.1 = k'
    · simp [dget, dset, hp, h]
    · simp only [dset, hp, if_false]
      by_cases hk : p.1 = k
      · simp [dget, hk]
      · simp [dget, hk, ih]

/-- Elements of `dset r k v` are the new pair or old elements. -/
theorem mem_dset (r : Record) (k : String) (v : Value) (p : String × Value)
    (hp : p ∈ dset r k v) : p = (k, v) ∨ p ∈ r := by
  induction r with
  | nil => simp [dset] at hp; simp [hp]
  | cons q r ih =>
    by_cases hq : q.1 = k
    · simp [dset, hq] at hp
      rcases hp with h | h
      · exact Or.inl h
      · exact Or.inr (List.mem_cons_of_mem _ h)
    · simp only [dset, hq, if_false, List.mem_cons] at hp
      rcases hp with h | h
      · exact Or.inr (by simp [h])
      · rcases ih h with h' | h'
        · exact Or.inl h'
        · exact Or.inr (List.mem_cons_of_mem _ h')

/-- `_check_var` is a function of the looked-up value alone. -/
theorem checkVar_congr (e₁ e₂ : Env) (v : String) (d : Option String)
    (h : envGet e₁ v = envGet e₂ v) : checkVar e₁ v d = checkVar e₂ v d := by
  unfold checkVar
  rw [h]

/-! ## C2 — `_check_var` with an empty variable name -/

/-- C2 (counterexample): with an empty name and default `"x"`,
`_check_var` returns `''`, not the default. -/
theorem checkVar_empty_name_counterexample :
    checkVar [] "" (some "x") = .ok "" ∧
      ¬(checkVar [] "" (some "x") = .ok "x") := by
  refine ⟨rfl, ?_⟩
  intro h
  simp [checkVar] at h

/-- C2 (amended): `_check_var` with an empty variable name returns the
empty string unconditionally — for every environment mapping and every
default — without consulting the mapping and without raising. -/
theorem checkVar_empty_name (e : Env) (d : Option String) :
    checkVar e "" d = .ok "" := rfl

/-! ## C4 — the `sqlite://:memory` shortcut -/

/-- C4: when the database variable's value is the literal
`sqlite://:memory`, `database_url` returns exactly
`{ENGINE: sqlite driver, NAME: ':memory:'}` with no other keys, for every
engine and options argument. -/
theorem database_url_sqlite_memory (e : Env) (v : String) (d : Option String)
    (engine : Option String) (options : Option (List (String × Value)))
    (hv : v ≠ "") (henv : envGet e v = some "sqlite://:memory") :
    database_url e v d engine options =
      .ok [("ENGINE", .str "django.db.backends.sqlite3"),
           ("NAME", .str ":memory:")] := by
  unfold database_url checkVar
  rw [henv]
  simp [hv, dbFromString]

/-- C4 witness at a concrete environment. -/
theorem database_url_sqlite_memory_witness :
    ("V" : String) ≠ "" ∧
    envGet [("V", "sqlite://:memory")] "V" = some "sqlite://:memory" ∧
    database_url [("V", "sqlite://:memory")] "V" (some "d") (some "otherengine")
        (some [("a", .str "b")]) =
      .ok [("ENGINE", .str "django.db.backends.sqlite3"),
           ("NAME", .str ":memory:")] :=
  ⟨by decide, rfl,
    database_url_sqlite_memory _ _ _ _ _ (by decide) rfl⟩

/-! ## C1 — `QUEUE_BACKEND` for `amazon*` schemes -/

/-- C1 (code evaluated at the failing input): for an `amazonsqs://` URL the
source's `backend if backend is None else conf['backend']` ignores a
supplied override (the registry default is returned instead) and yields
`None` when no override is supplied — the opposite of the documented
override-or-registry-default behaviour. -/
theorem queue_url_amazon_backend_bug :
    (queue_url [("QUEUE_URL", "amazonsqs://sqs.example.com")] "QUEUE_URL"
        none (some "custom.backend") none).map (fun r => dget r "QUEUE_BACKEND") =
      .ok (some (.str "mq.backends.sqs_backend.create_backend")) ∧
    (queue_url [("QUEUE_URL", "amazonsqs://sqs.example.com")] "QUEUE_URL"
        none none none).map (fun r => dget r "QUEUE_BACKEND") =
      .ok (some Value.none) :=
  ⟨rfl, rfl⟩

/-! ## C3 — `currentSchema` under the `postgres`/`postgresql` driver -/

/-- C3 (code evaluated at the failing input): a `postgres://` URL resolves
to engine `django.db.backends.postgresql`, which is not in the source's
translation tuple, so `currentSchema` is not translated into a
`search_path` option: it stays an opaque option, integer-coerced to `0`
and upper-cased to `CURRENTSCHEMA`. -/
theorem database_url_currentSchema_not_translated :
    (database_url [("DATABASE_URL", "postgres://u:p@h/db?currentSchema=myschema")]
        "DATABASE_URL" none none none).map (fun r => (dget r "ENGINE", dget r "OPTIONS")) =
      .ok (some (.str "django.db.backends.postgresql"),
           some (.opts [("CURRENTSCHEMA", .int 0)])) :=
  rfl

/-! ## C7 — resolvers are deterministic functions of the snapshot -/

/-- C7: every family resolver is a pure function of the environment
snapshot and its arguments: a repeated call returns an identical record,
and two environment mappings that agree on the resolved variable produce
identical results, for all five resolvers. -/
theorem resolvers_deterministic (e₁ e₂ : Env) (v : String) (d : Option String)
    (eng bk : Option String) (o : Option (List (String × Value)))
    (h : envGet e₁ v = envGet e₂ v) :
    (database_url e₁ v d eng o = database_url e₁ v d eng o ∧
     database_url e₁ v d eng o = database_url e₂ v d eng o) ∧
    (cache_url e₁ v d bk o = cache_url e₁ v d bk o ∧
     cache_url e₁ v d bk o = cache_url e₂ v d bk o) ∧
    (email_url e₁ v d bk o = email_url e₁ v d bk o ∧
     email_url e₁ v d bk o = email_url e₂ v d bk o) ∧
    (search_url e₁ v d eng o = search_url e₁ v d eng o ∧
     search_url e₁ v d eng o = search_url e₂ v d eng o) ∧
    (queue_url e₁ v d bk o = queue_url e₁ v d bk o ∧
     queue_url e₁ v d bk o = queue_url e₂ v d bk o) := by
  have hc := checkVar_congr e₁ e₂ v d h
  refine ⟨⟨rfl, ?_⟩, ⟨rfl, ?_⟩, ⟨rfl, ?_⟩, ⟨rfl, ?_⟩, ⟨rfl, ?_⟩⟩ <;>
    simp only [database_url, cache_url, email_url, search_url, queue_url, hc]

/-- C7 witness: two concrete environments agreeing on the variable give
identical queue records. -/
theorem resolvers_deterministic_witness :
    queue_url [("A", "redis://h/1"), ("B", "y")] "A" none none none =
      queue_url [("A", "redis://h/1")] "A" none none none :=
  (resolvers_deterministic [("A", "redis://h/1"), ("B", "y")]
    [("A", "redis://h/1")] "A" none none none none rfl).2.2.2.2.2

/-! ## C5 — missing required variable -/

/-- Accessing `url.port` never raises the required-variable error. -/
theorem portE_not_missing (u : Url) (err : EnvError) (h : u.portE = .error err) :
    errIsMissing err = false := by
  unfold Url.portE at h
  rcases hps : u.portStr with _ | s <;> simp only [hps] at h
  · cases h
  · by_cases hd : sIsDigits s = true
    · rw [if_pos hd] at h
      by_cases hn : digitsToNat s.data 0 ≤ 65535
      · rw [if_pos hn] at h; cases h
      · rw [if_neg hn] at h; cases h; rfl
    · rw [if_neg hd] at h; cases h; rfl

/-- The database path computation never raises the required-variable
error. -/
theorem dbPath_not_missing (u : Url) (err : EnvError) (h : dbPath u = .error err) :
    errIsMissing err = false := by
  unfold dbPath at h
  by_cases h1 : u.scheme = "sqlite" ∧ unquote_plus (pyPartBefore (sdrop u.path 1) '?') = ""
  · rw [if_pos h1] at h; cases h
  · rw [if_neg h1] at h
    by_cases h2 : u.scheme = "ldap"
    · rw [if_pos h2] at h
      rcases hport : u.portE with err' | p <;> simp only [hport] at h
      · cases h; exact portE_not_missing u _ hport
      · cases h
    · rw [if_neg h2] at h; cases h

/-- The engine resolution never raises the required-variable error. -/
theorem dbEngine_not_missing (engine : Option String) (s : String) (err : EnvError)
    (h : dbEngine engine s = .error err) : errIsMissing err = false := by
  unfold dbEngine at h
  rcases engine with _ | e <;> simp only at h
  · rcases hreg : DB_SCHEMES s with _ | d <;> simp only [hreg] at h
    · cases h; rfl
    · cases h
  · cases h

/-- `database_url`'s body never raises the required-variable error. -/
theorem dbBuild_not_missing (url : Url) (engine : Option String)
    (o : Option (List (String × Value))) :
    isMissingErr (dbBuild url engine o) = false := by
  unfold dbBuild
  rcases hp : dbPath url with err | path <;> simp only [hp]
  · simpa [isMissingErr] using dbPath_not_missing _ _ hp
  · rcases he : dbEngine engine url.scheme with err | eng <;> simp only [he]
    · simpa [isMissingErr] using dbEngine_not_missing _ _ _ he
    · rcases hport : url.portE with err | p <;> simp only [hport]
      · simpa [isMissingErr] using portE_not_missing _ _ hport
      · rfl

/-- The shortcut plus body never raise the required-variable error. -/
theorem dbFromString_not_missing (u : String) (engine : Option String)
    (o : Option (List (String × Value))) :
    isMissingErr (dbFromString u engine o) = false := by
  unfold dbFromString
  split
  · rfl
  · exact dbBuild_not_missing _ _ _

/-- The cache backend resolution never raises the required-variable
error. -/
theorem cacheBackend_not_missing (backend : Option String) (s : String) (err : EnvError)
    (h : cacheBackend backend s = .error err) : errIsMissing err = false := by
  unfold cacheBackend at h
  rcases backend with _ | b <;> simp only at h
  · rcases hreg : CACHE_SCHEMES s with _ | d <;> simp only [hreg] at h
    · cases h; rfl
    · cases h
  · by_cases hb : b = ""
    · rw [if_neg (by simp [hb])] at h
      rcases hreg : CACHE_SCHEMES s with _ | d <;> simp only [hreg] at h
      · cases h; rfl
      · cases h
    · rw [if_pos (by simpa using hb)] at h; cases h

/-- `cache_url`'s body never raises the required-variable error. -/
theorem cacheBuild_not_missing (url : Url) (backend : Option String)
    (o : Option (List (String × Value))) :
    isMissingErr (cacheBuild url backend o) = false := by
  unfold cacheBuild
  rcases hb : cacheBackend backend url.scheme with err | bk <;> simp only [hb]
  · simpa [isMissingErr] using cacheBackend_not_missing _ _ _ hb
  · rfl

/-- The email backend resolution never raises the required-variable
error. -/
theorem emailBackend_not_missing (backend : Option String) (s : String) (err : EnvError)
    (h : emailBackend backend s = .error err) : errIsMissing err = false := by
  unfold emailBackend at h
  rcases backend with _ | b <;> simp only at h
  · rcases hreg : EMAIL_SCHEMES s with _ | d <;> simp only [hreg] at h
    · cases h; rfl
    · cases h
  · by_cases hb : b = ""
    · rw [if_neg (by simp [hb])] at h
      rcases hreg : EMAIL_SCHEMES s with _ | d <;> simp only [hreg] at h
      · cases h; rfl
      · cases h
    · rw [if_pos (by simpa using hb)] at h; cases h

/-- `email_url`'s body never raises the required-variable error. -/
theorem emailBuild_not_missing (url : Url) (backend : Option String)
    (o : Option (List (String × Value))) :
    isMissingErr (emailBuild url backend o) = false := by
  unfold emailBuild
  rcases hport : url.portE with err | p <;> simp only [hport]
  · simpa [isMissingErr] using portE_not_missing _ _ hport
  · rcases hb : emailBackend backend url.scheme with err | bk <;> simp only [hb]
    · simpa [isMissingErr] using emailBackend_not_missing _ _ _ hb
    · rfl

/-- `search_url`'s body never raises the required-variable error. -/
theorem searchBuild_not_missing (url : Url) (engine : Option String)
    (o : Option (List (String × Value))) :
    isMissingErr (searchBuild url engine o) = false := by
  unfold searchBuild
  rcases hreg : SEARCH_SCHEMES url.scheme with _ | reg <;> simp only [hreg]
  · rfl
  · by_cases h1 : url.scheme = "simple"
    · rw [if_pos h1]; rfl
    · rw [if_neg h1]
      by_cases h2 : url.scheme = "solr"
      · rw [if_pos h2]; rfl
      · rw [if_neg h2]; rfl

/-- `queue_url`'s body never raises the required-variable error. -/
theorem queueBuild_not_missing (url : Url) (backend : Option String)
    (o : Option (List (String × Value))) :
    isMissingErr (queueBuild url backend o) = false := by
  unfold queueBuild
  rcases hport : url.portE with err | p <;> simp only [hport]
  · simpa [isMissingErr] using portE_not_missing _ _ hport
  · rcases backend with _ | b <;> simp only
    · rfl
    · rcases hconf : QUEUE_SCHEMES url.scheme with _ | c <;> simp only [hconf]
      · rfl
      · rfl

/-- C5 (counterexample): supplying the empty-string default does not
suppress the required-variable error, refuting "supplying a default
suppresses the error" as universally stated. -/
theorem resolver_empty_default_counterexample :
    envGet [] "DATABASE_URL" = none ∧
    database_url [] "DATABASE_URL" (some "") none none =
      .error (.missingVar "DATABASE_URL") :=
  ⟨rfl, rfl⟩

/-- C5 (amended): for every family resolver called with a non-empty
variable name absent from the environment mapping: with no default the
call raises the required-variable error, and supplying a non-empty
default suppresses that error. -/
theorem resolvers_missing_var (e : Env) (v : String) (eng bk : Option String)
    (o : Option (List (String × Value)))
    (hv : v ≠ "") (habs : envGet e v = none) :
    (database_url e v none eng o = .error (.missingVar v) ∧
     cache_url e v none bk o = .error (.missingVar v) ∧
     email_url e v none bk o = .error (.missingVar v) ∧
     search_url e v none eng o = .error (.missingVar v) ∧
     queue_url e v none bk o = .error (.missingVar v)) ∧
    ∀ d : String, d ≠ "" →
      (isMissingErr (database_url e v (some d) eng o) = false ∧
       isMissingErr (cache_url e v (some d) bk o) = false ∧
       isMissingErr (email_url e v (some d) bk o) = false ∧
       isMissingErr (search_url e v (some d) eng o) = false ∧
       isMissingErr (queue_url e v (some d) bk o) = false) := by
  have h1 : checkVar e v none = .error (.missingVar v) := by
    unfold checkVar
    rw [habs]
    simp [hv]
  have h2 : ∀ d : String, d ≠ "" → checkVar e v (some d) = .ok d := by
    intro d hd
    unfold checkVar
    rw [habs]
    simp [hv, hd]
  refine ⟨?_, ?_⟩
  · simp only [database_url, cache_url, email_url, search_url, queue_url, h1]
    exact ⟨trivial, trivial, trivial, trivial, trivial⟩
  · intro d hd
    simp only [database_url, cache_url, email_url, search_url, queue_url, h2 d hd]
    exact ⟨dbFromString_not_missing _ _ _, cacheBuild_not_missing _ _ _,
      emailBuild_not_missing _ _ _, searchBuild_not_missing _ _ _,
      queueBuild_not_missing _ _ _⟩

/-- C5 witness at a concrete environment. -/
theorem resolvers_missing_var_witness :
    database_url [] "X" none none none = .error (.missingVar "X") ∧
    isMissingErr (database_url [] "X" (some "postgres://h/db") none none) = false :=
  ⟨(resolvers_missing_var [] "X" none none none (by decide) rfl).1.1,
   ((resolvers_missing_var [] "X" none none none (by decide) rfl).2
     "postgres://h/db" (by decide)).1⟩

/-! ## C8 — cache resolver with an unknown scheme -/

/-- No promoted cache option key is `BACKEND`. -/
theorem cache_base_ne_backend : ∀ s, CACHE_BASE_OPTIONS.contains s = true → s ≠ "BACKEND" := by
  intro s hs
  simp [CACHE_BASE_OPTIONS] at hs
  rcases hs with h | h | h | h | h <;> subst h <;> decide

/-- The cache query loop only writes promoted keys into the config. -/
theorem cacheApplyQs_fst_dget (ps : List (String × List String)) :
    ∀ (init : Record × Record) (k : String),
      (∀ s, CACHE_BASE_OPTIONS.contains s = true → s ≠ k) →
      dget (cacheApplyQs ps init).1 k = dget init.1 k := by
  induction ps with
  | nil => intro init k hk; rfl
  | cons p ps ih =>
    intro init k hk
    have hstep : dget (cacheQsStep init p).1 k = dget init.1 k := by
      unfold cacheQsStep
      rcases hc : CACHE_BASE_OPTIONS.contains (sToUpper p.1) with _ | _
      · simp only [hc]
        rw [if_neg (by decide)]
      · simp only [hc]
        rw [if_pos trivial]
        exact dget_dset_ne _ _ _ _ (hk _ hc)
    calc dget (cacheApplyQs (p :: ps) init).1 k
        = dget (cacheApplyQs ps (cacheQsStep init p)).1 k := rfl
      _ = dget (cacheQsStep init p).1 k := ih _ k hk
      _ = dget init.1 k := hstep

/-- The cache tail leaves every key except `OPTIONS` and the promoted
option keys unchanged. -/
theorem dget_cacheTail_ne (url : Url) (o : Option (List (String × Value))) (c : Record)
    (k : String) (hk1 : ∀ s, CACHE_BASE_OPTIONS.contains s = true → s ≠ k)
    (hk2 : "OPTIONS" ≠ k) :
    dget (cacheTail url o c) k = dget c k := by
  unfold cacheTail
  by_cases hq : url.query ≠ ""
  · rw [if_pos hq]
    rcases hsplit : cacheApplyQs (parse_qs url.query) (c, []) with ⟨c1, o1⟩
    have hc1 : dget c1 k = dget c k := by
      have h := cacheApplyQs_fst_dget (parse_qs url.query) (c, []) k hk1
      rw [hsplit] at h
      exact h
    dsimp only
    rw [dget_dset_ne _ _ _ _ hk2]
    exact hc1
  · rw [if_neg hq]
    dsimp only
    rw [dget_dset_ne _ _ _ _ hk2]

/-- C8: for a cache URL whose scheme is absent from the cache registry,
`cache_url` without a backend override raises the registry `KeyError`,
while any non-empty backend override short-circuits the lookup: a record
is returned without error and its `BACKEND` is the override. -/
theorem cache_url_unknown_scheme (e : Env) (v : String) (d : Option String)
    (o : Option (List (String × Value))) (u : String)
    (hcv : checkVar e v d = .ok u)
    (hreg : CACHE_SCHEMES (urlparse u).scheme = none) :
    cache_url e v d none o = .error (.keyError (urlparse u).scheme) ∧
    ∀ b : String, b ≠ "" →
      (∃ r, cache_url e v d (some b) o = .ok r) ∧
      (cache_url e v d (some b) o).map (fun r => dget r "BACKEND") =
        .ok (some (.str b)) := by
  have h0 : ∀ bk, cache_url e v d bk o = cacheBuild (urlparse u) bk o := by
    intro bk; unfold cache_url; rw [hcv]
  constructor
  · have hbk : cacheBackend none (urlparse u).scheme =
        .error (.keyError (urlparse u).scheme) := by
      unfold cacheBackend
      rw [hreg]
    rw [h0]
    unfold cacheBuild
    simp only [hbk]
  · intro b hb
    have hbk : cacheBackend (some b) (urlparse u).scheme = .ok b := by
      simp [cacheBackend, hb]
    rw [h0]
    unfold cacheBuild
    simp only [hbk]
    refine ⟨⟨_, rfl⟩, ?_⟩
    simp only [Except.map]
    rw [dget_cacheTail_ne _ _ _ _ cache_base_ne_backend (by decide)]
    split
    · rw [dget_dset_ne _ _ _ _ (by decide)]
      split
      · rw [dget_dset_ne _ _ _ _ (by decide)]
        simp [dget]
      · simp [dget]
    · split
      · rw [dget_dset_ne _ _ _ _ (by decide)]
        split
        · rw [dget_dset_ne _ _ _ _ (by decide)]
          simp [dget]
        · simp [dget]
      · split
        · rw [dget_dset_ne _ _ _ _ (by decide)]
          simp [dget]
        · simp [dget]

/-- C8 witness: concrete unknown scheme `foo`. -/
theorem cache_url_unknown_scheme_witness :
    cache_url [("C", "foo://h:1")] "C" none none none = .error (.keyError "foo") ∧
    (cache_url [("C", "foo://h:1")] "C" none (some "my.backend") none).map
      (fun r => dget r "BACKEND") = .ok (some (.str "my.backend")) :=
  ⟨(cache_url_unknown_scheme [("C", "foo://h:1")] "C" none none "foo://h:1" rfl rfl).1,
   ((cache_url_unknown_scheme [("C", "foo://h:1")] "C" none none "foo://h:1" rfl rfl).2
     "my.backend" (by decide)).2⟩

/-! ## C9 — queue resolver with an unknown scheme -/

/-- With no recognized queue base options, the query loop never touches
the config component. -/
theorem queueApplyQs_fst (ps : List (String × List String)) :
    ∀ init : Record × Record, (queueApplyQs ps init).1 = init.1 := by
  induction ps with
  | nil => intro init; rfl
  | cons p ps ih =>
    intro init
    calc (queueApplyQs (p :: ps) init).1
        = (queueApplyQs ps (queueQsStep init p)).1 := rfl
      _ = (queueQsStep init p).1 := ih _
      _ = init.1 := rfl

/-- The userinfo step leaves keys other than `USER`/`PASSWORD` alone. -/
theorem dget_queueUserStep_ne (url : Url) (c : Record) (k : String)
    (h1 : "USER" ≠ k) (h2 : "PASSWORD" ≠ k) :
    dget (queueUserStep url c) k = dget c k := by
  unfold queueUserStep
  rcases hu : url.username with _ | un
  · rfl
  · dsimp only
    by_cases hun : un ≠ ""
    · rw [if_pos hun, dget_dset_ne _ _ _ _ h2, dget_dset_ne _ _ _ _ h1]
    · rw [if_neg hun]

/-- The final queue steps leave keys other than `OPTIONS` alone. -/
theorem dget_queueFinish_ne (url : Url) (o : Option (List (String × Value)))
    (c : Record) (k : String) (h3 : "OPTIONS" ≠ k) :
    dget (queueFinish url o c) k = dget c k := by
  unfold queueFinish
  by_cases hq : url.query ≠ ""
  · rw [if_pos hq]
    rcases hsplit : queueApplyQs (parse_qs url.query) (c, []) with ⟨c1, o1⟩
    have hc1 : c1 = c := by
      have h := queueApplyQs_fst (parse_qs url.query) (c, [])
      rw [hsplit] at h
      exact h
    subst hc1
    dsimp only
    split
    · rw [dget_dset_ne _ _ _ _ h3]
    · rfl
  · rw [if_neg hq]
    dsimp only
    split
    · rw [dget_dset_ne _ _ _ _ h3]
    · rfl

/-- The whole queue tail leaves keys other than `USER`, `PASSWORD` and
`OPTIONS` alone. -/
theorem dget_queueTail_ne (url : Url) (o : Option (List (String × Value)))
    (c : Record) (k : String) (h1 : "USER" ≠ k) (h2 : "PASSWORD" ≠ k)
    (h3 : "OPTIONS" ≠ k) :
    dget (queueTail url o c) k = dget c k := by
  unfold queueTail
  rw [dget_queueFinish_ne _ _ _ _ h3, dget_queueUserStep_ne _ _ _ h1 h2]

/-- C9: for a queue URL whose scheme neither starts with `amazon` or
`rabbit`, nor equals `redis` (hence is absent from the queue registry),
`queue_url` without a backend override raises no unknown-scheme error: it
returns the generic record whose `QUEUE_BACKEND` is the null value,
`PATH` is the decoded path, `HOST` is the hostname (null when absent) and
`PORT` is the empty string when the URL has no port; with any backend
override supplied the call fails indexing the missing registry entry. -/
theorem queue_url_unknown_scheme (e : Env) (v : String) (d : Option String)
    (o : Option (List (String × Value))) (u : String)
    (hcv : checkVar e v d = .ok u)
    (hport : (urlparse u).portOk = true)
    (hAmazon : sStartsWith (urlparse u).scheme "amazon" = false)
    (hRabbit : sStartsWith (urlparse u).scheme "rabbit" = false)
    (hRedis : (urlparse u).scheme ≠ "redis")
    (hReg : QUEUE_SCHEMES (urlparse u).scheme = none) :
    (∃ r, queue_url e v d none o = .ok r ∧
      dget r "QUEUE_BACKEND" = some Value.none ∧
      dget r "PATH" =
        some (.str (unquote_plus (pyPartBefore (sdrop (urlparse u).path 1) '?'))) ∧
      dget r "HOST" = some (match (urlparse u).hostname with
        | some h => .str h | Option.none => Value.none) ∧
      ((urlparse u).port = none → dget r "PORT" = some (.str ""))) ∧
    ∀ b : String, queue_url e v d (some b) o = .error (.keyError "backend") := by
  have h0 : ∀ bk, queue_url e v d bk o = queueBuild (urlparse u) bk o := by
    intro bk; unfold queue_url; rw [hcv]
  obtain ⟨p, hp⟩ : ∃ p, (urlparse u).portE = .ok p := by
    unfold Url.portOk at hport
    rcases h : (urlparse u).portE with err | p
    · rw [h] at hport; simp at hport
    · exact ⟨p, rfl⟩
  have hup : (urlparse u).port = p := by
    unfold Url.port
    rw [hp]
  constructor
  · rw [h0]
    unfold queueBuild
    simp only [hp, hReg]
    rw [if_neg (by simp [hAmazon])]
    rw [if_neg (by simp [hRabbit])]
    rw [if_neg hRedis]
    refine ⟨_, rfl, ?_, ?_, ?_, ?_⟩
    · rw [dget_queueTail_ne _ _ _ _ (by decide) (by decide) (by decide),
        dget_dset_ne _ _ _ _ (by decide), dget_dset_ne _ _ _ _ (by decide),
        dget_dset_ne _ _ _ _ (by decide)]
      rfl
    · rw [dget_queueTail_ne _ _ _ _ (by decide) (by decide) (by decide),
        dget_dset_ne _ _ _ _ (by decide), dget_dset_ne _ _ _ _ (by decide),
        dget_dset_self]
    · rw [dget_queueTail_ne _ _ _ _ (by decide) (by decide) (by decide),
        dget_dset_ne _ _ _ _ (by decide), dget_dset_self]
    · intro hpn
      rw [hup] at hpn
      subst hpn
      rw [dget_queueTail_ne _ _ _ _ (by decide) (by decide) (by decide),
        dget_dset_self]
      rfl
  · intro b
    rw [h0]
    unfold queueBuild
    simp only [hp, hReg]

/-- C9 witness at the concrete unknown scheme `foo`. -/
theorem queue_url_unknown_scheme_witness :
    (∃ r, queue_url [("Q", "foo://h/p")] "Q" none none none = .ok r ∧
      dget r "QUEUE_BACKEND" = some Value.none ∧
      dget r "PATH" =
        some (.str (unquote_plus (pyPartBefore (sdrop (urlparse "foo://h/p").path 1) '?'))) ∧
      dget r "HOST" = some (match (urlparse "foo://h/p").hostname with
        | some h => .str h | Option.none => Value.none) ∧
      ((urlparse "foo://h/p").port = none →
        dget r "PORT" = some (.str ""))) ∧
    ∀ b : String, queue_url [("Q", "foo://h/p")] "Q" none (some b) none =
      .error (.keyError "backend") :=
  queue_url_unknown_scheme [("Q", "foo://h/p")] "Q" none none "foo://h/p"
    rfl rfl rfl rfl (by decide) rfl

/-! ## C6 — elasticsearch index/path splitting -/

/-- A split never produces the empty list. -/
theorem splitOnCharAux_ne_nil (sep : Char) (l : List Char) :
    ∀ acc, splitOnCharAux sep l acc ≠ [] := by
  induction l with
  | nil => intro acc; simp [splitOnCharAux]
  | cons c rest ih =>
    intro acc
    unfold splitOnCharAux
    by_cases h : c = sep
    · rw [if_pos h]; simp
    · rw [if_neg h]; exact ih _

/-- A split never produces the empty list. -/
theorem ssplitOnChar_ne_nil (s : String) (c : Char) : ssplitOnChar s c ≠ [] := by
  unfold ssplitOnChar
  intro h
  exact splitOnCharAux_ne_nil c s.data [] (by simpa using h)

/-- A singleton split result is the accumulated input. -/
theorem splitOnCharAux_singleton (sep : Char) (l : List Char) :
    ∀ (acc y : List Char), splitOnCharAux sep l acc = [y] → y = acc.reverse ++ l := by
  induction l with
  | nil =>
    intro acc y h
    simp [splitOnCharAux] at h
    simp [h]
  | cons c rest ih =>
    intro acc y h
    unfold splitOnCharAux at h
    by_cases hc : c = sep
    · rw [if_pos hc] at h
      cases hrest : splitOnCharAux sep rest [] with
      | nil => exact absurd hrest (splitOnCharAux_ne_nil sep rest [])
      | cons z zs => rw [hrest] at h; simp at h
    · rw [if_neg hc] at h
      have hy := ih (c :: acc) y h
      simp only [List.reverse_cons, List.append_assoc, List.singleton_append] at hy
      exact hy

/-- A singleton split of a string is the whole string. -/
theorem ssplitOnChar_singleton (s : String) (c : Char) (x : String)
    (h : ssplitOnChar s c = [x]) : x = s := by
  unfold ssplitOnChar at h
  cases haux : splitOnCharAux c s.data [] with
  | nil => exact absurd haux (splitOnCharAux_ne_nil c s.data [])
  | cons y ys =>
    rw [haux] at h
    rcases ys with _ | ⟨z, zs⟩
    · simp at h
      have hy := splitOnCharAux_singleton c s.data [] y haux
      simp at hy
      rw [← h, hy]
    · simp at h

/-- `rsplit(sep, 1)` and the split-at-last-separator description give the
same leading part. -/
theorem pyRSplit1_pre (s : String) :
    (if (pyRSplit1 s '/').length > 1 then sintercalate "/" (pyRSplit1 s '/').dropLast
     else "") =
      (if (ssplitOnChar s '/').length ≤ 1 then ""
       else sintercalate "/" (ssplitOnChar s '/').dropLast) := by
  rcases hparts : ssplitOnChar s '/' with _ | ⟨a, _ | ⟨b, t⟩⟩
  · exact absurd hparts (ssplitOnChar_ne_nil s '/')
  · unfold pyRSplit1
    rw [hparts]
    simp
  · unfold pyRSplit1
    rw [hparts]
    simp [sintercalate]

/-- `rsplit(sep, 1)` and the split-at-last-separator description give the
same final segment. -/
theorem pyRSplit1_idx (s : String) :
    (if (pyRSplit1 s '/').length > 1 then (pyRSplit1 s '/').getLastD ""
     else (pyRSplit1 s '/').headD "") =
      (ssplitOnChar s '/').getLastD "" := by
  rcases hparts : ssplitOnChar s '/' with _ | ⟨a, _ | ⟨b, t⟩⟩
  · exact absurd hparts (ssplitOnChar_ne_nil s '/')
  · unfold pyRSplit1
    rw [hparts]
    simp
    exact (ssplitOnChar_singleton s '/' a hparts).symm
  · unfold pyRSplit1
    rw [hparts]
    simp

/-- A promoted search parameter never touches other keys. -/
theorem dget_promoteOpt_ne (params : List (String × List String)) (K : String)
    (f : List String → Value) (c : Record) (k : String) (h : K ≠ k) :
    dget (promoteOpt params K f c) k = dget c k := by
  unfold promoteOpt
  rcases qsGet params K with _ | vs
  · rfl
  · exact dget_dset_ne _ _ _ _ h

/-- String concatenation is associative. -/
theorem sappend_assoc (a b c : String) : a ++ b ++ c = a ++ (b ++ c) := by
  rcases a with ⟨la⟩
  rcases b with ⟨lb⟩
  rcases c with ⟨lc⟩
  show String.mk (la ++ lb ++ lc) = String.mk (la ++ (lb ++ lc))
  rw [List.append_assoc]

/-- With a nonempty authority, the `urlunparse` call renders exactly
`http://<netloc><path-as-component>`. -/
theorem urlunsplitHttp_eq (netloc pre : String) (hnl : netloc ≠ "") :
    urlunsplitHttp netloc pre =
      "http://" ++ netloc ++
        (if pre = "" then "" else if sStartsWith pre "/" then pre else "/" ++ pre) := by
  unfold urlunsplitHttp
  rw [if_pos (Or.inl hnl)]
  by_cases h0 : pre = ""
  · subst h0
    rw [if_neg (by simp), if_pos rfl]
    simp only [← sappend_assoc]
    rfl
  · by_cases h1 : sStartsWith pre "/" = true
    · rw [if_neg (by simp [h1]), if_neg h0, if_pos h1]
      simp only [← sappend_assoc]
      rfl
    · rw [if_pos ⟨h0, by simpa using h1⟩, if_neg h0, if_neg h1]
      simp only [← sappend_assoc]
      rfl

/-- C6: for every search URL with scheme `elasticsearch` or
`elasticsearch2` whose authority is nonempty, `search_url` strips a
trailing slash from the decoded path and splits it at its last `/`: the
segment after the split becomes `INDEX_NAME`, the part before it becomes
the URL path prefix (empty when the path contains no `/`), and `URL` is
built as `http://<authority><path-prefix>` with the scheme forced to
`http` regardless of the original scheme. -/
theorem search_url_elasticsearch (e : Env) (v : String) (d : Option String)
    (eng : Option String) (u : String)
    (hcv : checkVar e v d = .ok u)
    (hs : (urlparse u).scheme = "elasticsearch" ∨ (urlparse u).scheme = "elasticsearch2")
    (hnl : (urlparse u).netloc ≠ "") :
    ∃ r, search_url e v d eng none = .ok r ∧
      (let dp0 := unquote_plus (pyPartBefore (sdrop (urlparse u).path 1) '?')
       let dp := if sEndsWith dp0 "/" then sdropRight dp0 1 else dp0
       let parts := ssplitOnChar dp '/'
       let idx := parts.getLastD ""
       let pre := if parts.length ≤ 1 then "" else sintercalate "/" parts.dropLast
       dget r "INDEX_NAME" = some (.str idx) ∧
       dget r "URL" = some (.str ("http://" ++ (urlparse u).netloc ++
         (if pre = "" then "" else if sStartsWith pre "/" then pre else "/" ++ pre)))) := by
  have h0 : search_url e v d eng none = searchBuild (urlparse u) eng none := by
    unfold search_url
    rw [hcv]
  obtain ⟨reg, hreg⟩ : ∃ reg, SEARCH_SCHEMES (urlparse u).scheme = some reg := by
    rcases hs with h | h <;> rw [h]
    · exact ⟨_, rfl⟩
    · exact ⟨_, rfl⟩
  have hsimple : ¬((urlparse u).scheme = "simple") := by
    rcases hs with h | h <;> rw [h] <;> decide
  have hkw : (urlparse u).scheme = "solr" ∨ (urlparse u).scheme = "elasticsearch" ∨
      (urlparse u).scheme = "elasticsearch2" := by
    rcases hs with h | h
    · exact Or.inr (Or.inl h)
    · exact Or.inr (Or.inr h)
  have hsolr : ¬((urlparse u).scheme = "solr") := by
    rcases hs with h | h <;> rw [h] <;> decide
  have hes : sStartsWith (urlparse u).scheme "elasticsearch" = true := by
    rcases hs with h | h <;> rw [h] <;> decide
  rw [h0]
  unfold searchBuild
  simp only [hreg]
  rw [if_neg hsimple, if_pos hkw, if_neg hsolr, if_pos hes]
  refine ⟨_, rfl, ?_⟩
  dsimp only
  constructor
  · rw [dget_dset_self]
    rw [pyRSplit1_idx]
  · rw [dget_dset_ne _ _ _ _ (by decide), dget_promoteOpt_ne _ _ _ _ _ (by decide),
      dget_dset_self, urlunsplitHttp_eq _ _ hnl, pyRSplit1_pre]

/-- C6 witness at the spec's example `elasticsearch2://127.0.0.1:9200/index`. -/
theorem search_url_elasticsearch_witness :
    ∃ r, search_url [("S", "elasticsearch2://127.0.0.1:9200/index")] "S"
        none none none = .ok r ∧
      (let dp0 := unquote_plus (pyPartBefore
        (sdrop (urlparse "elasticsearch2://127.0.0.1:9200/index").path 1) '?')
       let dp := if sEndsWith dp0 "/" then sdropRight dp0 1 else dp0
       let parts := ssplitOnChar dp '/'
       let idx := parts.getLastD ""
       let pre := if parts.length ≤ 1 then "" else sintercalate "/" parts.dropLast
       dget r "INDEX_NAME" = some (.str idx) ∧
       dget r "URL" = some (.str ("http://" ++
         (urlparse "elasticsearch2://127.0.0.1:9200/index").netloc ++
         (if pre = "" then "" else if sStartsWith pre "/" then pre else "/" ++ pre)))) :=
  search_url_elasticsearch [("S", "elasticsearch2://127.0.0.1:9200/index")] "S"
    none none "elasticsearch2://127.0.0.1:9200/index" rfl (Or.inr rfl) (by decide)

/-! ## C10 — email query-option integer coercion -/

/-- No promoted email option key is `OPTIONS`. -/
theorem email_base_ne_options : ∀ s, EMAIL_BASE_OPTIONS.contains s = true → s ≠ "OPTIONS" := by
  intro s hs
  simp [EMAIL_BASE_OPTIONS] at hs
  rcases hs with h | h <;> subst h <;> decide

/-- The email query loop only writes promoted keys into the config. -/
theorem emailApplyQs_fst_dget (ps : List (String × List String)) :
    ∀ (init : Record × Record) (k : String),
      (∀ s, EMAIL_BASE_OPTIONS.contains s = true → s ≠ k) →
      dget (emailApplyQs ps init).1 k = dget init.1 k := by
  induction ps with
  | nil => intro init k hk; rfl
  | cons p ps ih =>
    intro init k hk
    have hstep : dget (emailQsStep init p).1 k = dget init.1 k := by
      unfold emailQsStep
      rcases hc : EMAIL_BASE_OPTIONS.contains (sToUpper p.1) with _ | _
      · simp only [hc]
        rw [if_neg (by decide)]
      · simp only [hc]
        rw [if_pos trivial]
        exact dget_dset_ne _ _ _ _ (hk _ hc)
    calc dget (emailApplyQs (p :: ps) init).1 k
        = dget (emailApplyQs ps (emailQsStep init p)).1 k := rfl
      _ = dget (emailQsStep init p).1 k := ih _ k hk
      _ = dget init.1 k := hstep

/-- Every opaque value the email query loop accumulates is an integer. -/
theorem emailApplyQs_snd_int (ps : List (String × List String)) :
    ∀ init : Record × Record,
      (∀ p ∈ init.2, ∃ n, p.2 = Value.int n) →
      ∀ p ∈ (emailApplyQs ps init).2, ∃ n, p.2 = Value.int n := by
  induction ps with
  | nil => intro init h; exact h
  | cons q ps ih =>
    intro init h
    have hstep : ∀ p ∈ (emailQsStep init q).2, ∃ n, p.2 = Value.int n := by
      unfold emailQsStep
      rcases hc : EMAIL_BASE_OPTIONS.contains (sToUpper q.1) with _ | _
      · simp only [hc]
        rw [if_neg (by decide)]
        intro p hp
        dsimp only at hp
        rcases mem_dset _ _ _ _ hp with h' | h'
        · exact ⟨_, by rw [h']⟩
        · exact h _ h'
      · simp only [hc]
        rw [if_pos trivial]
        exact h
    exact ih _ hstep

/-- A query parameter whose upper-cased key is a promoted email option
leaves that key holding an integer after the loop. -/
theorem emailApplyQs_fst_promoted (K : String) (hK : EMAIL_BASE_OPTIONS.contains K = true)
    (ps : List (String × List String)) :
    ∀ init : Record × Record,
      ((∃ kv ∈ ps, sToUpper kv.1 = K) ∨ (∃ n, dget init.1 K = some (Value.int n))) →
      ∃ n, dget (emailApplyQs ps init).1 K = some (Value.int n) := by
  induction ps with
  | nil =>
    intro init h
    rcases h with ⟨kv, hkv, _⟩ | h
    · simp at hkv
    · exact h
  | cons q ps ih =>
    intro init h
    apply ih (emailQsStep init q)
    rcases h with ⟨kv, hkv, hup⟩ | ⟨n, hn⟩
    · rcases List.mem_cons.mp hkv with heq | hmem
      · right
        have hupq : sToUpper q.1 = K := by rw [← heq]; exact hup
        unfold emailQsStep
        rw [hupq, if_pos hK]
        dsimp only
        exact ⟨_, dget_dset_self _ _ _⟩
      · left
        exact ⟨kv, hmem, hup⟩
    · right
      rcases init with ⟨c, os⟩
      unfold emailQsStep
      rcases hc : EMAIL_BASE_OPTIONS.contains (sToUpper q.1) with _ | _
      · simp only [hc]
        rw [if_neg (by decide)]
        exact ⟨n, hn⟩
      · simp only [hc]
        rw [if_pos trivial]
        dsimp only
        by_cases hkq : sToUpper q.1 = K
        · exact ⟨_, by rw [hkq, dget_dset_self]⟩
        · refine ⟨n, ?_⟩
          rw [dget_dset_ne _ _ _ _ hkq]
          exact hn

/-- The upper-casing re-fold of the opaque options preserves
integer-valued entries. -/
theorem upperFold_int (l : List (String × Value)) :
    ∀ acc : List (String × Value),
      (∀ p ∈ acc, ∃ n, p.2 = Value.int n) →
      (∀ p ∈ l, ∃ n, p.2 = Value.int n) →
      ∀ p ∈ l.foldl (fun a kv => dset a (sToUpper kv.1) kv.2) acc,
        ∃ n, p.2 = Value.int n := by
  induction l with
  | nil => intro acc hacc _ p hp; exact hacc p hp
  | cons q l ih =>
    intro acc hacc hl p hp
    refine ih (dset acc (sToUpper q.1) q.2) ?_ (fun p' hp' => hl p' (List.mem_cons_of_mem _ hp')) p hp
    intro p' hp'
    rcases mem_dset _ _ _ _ hp' with h' | h'
    · obtain ⟨n, hn⟩ := hl q (List.mem_cons_self _ _)
      exact ⟨n, by rw [h']; exact hn⟩
    · exact hacc p' h'

/-- The empty query parses to no parameters. -/
theorem parse_qs_empty : parse_qs "" = [] := rfl

/-- The integer coercion sends empty and non-digit strings to `0`. -/
theorem pyInt_nondigit : ∀ s : String, ¬(s ≠ "" ∧ sIsDigits s = true) → pyInt s = 0 := by
  intro s hs
  unfold pyInt
  by_cases hd : sIsDigits s = true
  · exfalso
    apply hs
    refine ⟨?_, hd⟩
    intro h0
    subst h0
    simp [sIsDigits] at hd
  · rw [if_neg hd]

/-- C10: every query parameter of an email URL is integer-coerced — the
opaque ones as well as the promoted `EMAIL_USE_TLS`/`EMAIL_USE_SSL` — so
every query-derived entry of the `OPTIONS` sub-mapping is an integer, and
the coercion sends empty or non-digit values to `0`. -/
theorem email_url_int_coercion (e : Env) (v : String) (d : Option String)
    (bk : Option String) (u : String) (r : Record)
    (hcv : checkVar e v d = .ok u)
    (hr : email_url e v d bk none = .ok r) :
    (∀ os, dget r "OPTIONS" = some (.opts os) → ∀ p ∈ os, ∃ n, p.2 = Value.int n) ∧
    ((∃ kv ∈ parse_qs (urlparse u).query, sToUpper kv.1 = "EMAIL_USE_TLS") →
      ∃ n, dget r "EMAIL_USE_TLS" = some (Value.int n)) ∧
    ((∃ kv ∈ parse_qs (urlparse u).query, sToUpper kv.1 = "EMAIL_USE_SSL") →
      ∃ n, dget r "EMAIL_USE_SSL" = some (Value.int n)) ∧
    (∀ s : String, ¬(s ≠ "" ∧ sIsDigits s = true) → pyInt s = 0) := by
  have htail_opt : ∀ c : Record, dget c "OPTIONS" = none →
      ∀ os, dget (emailTail (urlparse u) none c) "OPTIONS" = some (.opts os) →
      ∀ p ∈ os, ∃ n, p.2 = Value.int n := by
    intro c hc os hos p hp
    unfold emailTail at hos
    by_cases hq : (urlparse u).query ≠ ""
    · rw [if_pos hq] at hos
      rcases hsplit : emailApplyQs (parse_qs (urlparse u).query) (c, []) with ⟨c3, o3⟩
      rw [hsplit] at hos
      dsimp only at hos
      have ho3 : ∀ p' ∈ o3, ∃ n, p'.2 = Value.int n := by
        have h := emailApplyQs_snd_int (parse_qs (urlparse u).query) (c, [])
          (by intro p' hp'; simp at hp')
        rw [hsplit] at h
        exact h
      have hc3 : dget c3 "OPTIONS" = none := by
        have h := emailApplyQs_fst_dget (parse_qs (urlparse u).query) (c, [])
          "OPTIONS" email_base_ne_options
        rw [hsplit] at h
        dsimp only at h
        rw [h]
        exact hc
      by_cases he : o3.isEmpty
      · rw [if_neg (by simp [he])] at hos
        rw [hc3] at hos
        cases hos
      · rw [if_pos (by simp [he])] at hos
        rw [dget_dset_self] at hos
        injection hos with hos1
        injection hos1 with hos2
        subst hos2
        exact upperFold_int o3 [] (by intro p' hp'; simp at hp') ho3 p hp
    · rw [if_neg hq] at hos
      dsimp only at hos
      simp only [List.isEmpty_nil, Bool.not_true, Bool.false_eq_true, if_false] at hos
      rw [hc] at hos
      cases hos
  have htail_prom : ∀ K : String, EMAIL_BASE_OPTIONS.contains K = true →
      (∃ kv ∈ parse_qs (urlparse u).query, sToUpper kv.1 = K) →
      ∀ c : Record, ∃ n, dget (emailTail (urlparse u) none c) K = some (Value.int n) := by
    intro K hK hex c
    unfold emailTail
    by_cases hq : (urlparse u).query ≠ ""
    · rw [if_pos hq]
      rcases hsplit : emailApplyQs (parse_qs (urlparse u).query) (c, []) with ⟨c3, o3⟩
      dsimp only
      obtain ⟨n, hn⟩ : ∃ n, dget c3 K = some (Value.int n) := by
        have h := emailApplyQs_fst_promoted K hK (parse_qs (urlparse u).query)
          (c, []) (Or.inl hex)
        rw [hsplit] at h
        exact h
      refine ⟨n, ?_⟩
      split
      · rw [dget_dset_ne _ _ _ _ (Ne.symm (email_base_ne_options K hK))]
        exact hn
      · exact hn
    · exfalso
      have hq0 : (urlparse u).query = "" := not_ne_iff.mp hq
      obtain ⟨kv, hkv, _⟩ := hex
      rw [hq0, parse_qs_empty] at hkv
      simp at hkv
  have h0 : email_url e v d bk none = emailBuild (urlparse u) bk none := by
    unfold email_url
    rw [hcv]
  rw [h0] at hr
  unfold emailBuild at hr
  rcases hport : (urlparse u).portE with err | p
  · rw [hport] at hr
    cases hr
  · simp only [hport] at hr
    rcases hbk : emailBackend bk (urlparse u).scheme with err | b
    · simp only [hbk] at hr
      cases hr
    · simp only [hbk] at hr
      injection hr with hr2
      subst hr2
      refine ⟨fun os hos p hp => htail_opt _ ?_ os hos p hp,
        fun hex => htail_prom "EMAIL_USE_TLS" (by decide) hex _,
        fun hex => htail_prom "EMAIL_USE_SSL" (by decide) hex _,
        pyInt_nondigit⟩
      split
      · rw [dget_dset_ne _ _ _ _ (by decide), dget_dset_ne _ _ _ _ (by decide)]
        rfl
      · split
        · rw [dget_dset_ne _ _ _ _ (by decide), dget_dset_ne _ _ _ _ (by decide)]
          rfl
        · rw [dget_dset_ne _ _ _ _ (by decide)]
          rfl

/-- C10 witness at a concrete email URL with a promoted and an opaque
query parameter. -/
theorem email_url_int_coercion_witness :
    (∀ os, dget [("EMAIL_FILE_PATH", Value.str ""), ("EMAIL_HOST_USER", Value.none),
        ("EMAIL_HOST_PASSWORD", Value.none), ("EMAIL_HOST", Value.str "h"),
        ("EMAIL_PORT", Value.int 25),
        ("EMAIL_BACKEND", Value.str "django.core.mail.backends.smtp.EmailBackend"),
        ("EMAIL_USE_TLS", Value.int 1),
        ("OPTIONS", Value.opts [("CUSTOM", Value.int 0)])] "OPTIONS" =
          some (.opts os) →
      ∀ p ∈ os, ∃ n, p.2 = Value.int n) ∧
    ((∃ kv ∈ parse_qs (urlparse "smtp://h:25/?EMAIL_USE_TLS=1&custom=abc").query,
        sToUpper kv.1 = "EMAIL_USE_TLS") →
      ∃ n, dget [("EMAIL_FILE_PATH", Value.str ""), ("EMAIL_HOST_USER", Value.none),
        ("EMAIL_HOST_PASSWORD", Value.none), ("EMAIL_HOST", Value.str "h"),
        ("EMAIL_PORT", Value.int 25),
        ("EMAIL_BACKEND", Value.str "django.core.mail.backends.smtp.EmailBackend"),
        ("EMAIL_USE_TLS", Value.int 1),
        ("OPTIONS", Value.opts [("CUSTOM", Value.int 0)])] "EMAIL_USE_TLS" =
          some (Value.int n)) ∧
    ((∃ kv ∈ parse_qs (urlparse "smtp://h:25/?EMAIL_USE_TLS=1&custom=abc").query,
        sToUpper kv.1 = "EMAIL_USE_SSL") →
      ∃ n, dget [("EMAIL_FILE_PATH", Value.str ""), ("EMAIL_HOST_USER", Value.none),
        ("EMAIL_HOST_PASSWORD", Value.none), ("EMAIL_HOST", Value.str "h"),
        ("EMAIL_PORT", Value.int 25),
        ("EMAIL_BACKEND", Value.str "django.core.mail.backends.smtp.EmailBackend"),
        ("EMAIL_USE_TLS", Value.int 1),
        ("OPTIONS", Value.opts [("CUSTOM", Value.int 0)])] "EMAIL_USE_SSL" =
          some (Value.int n)) ∧
    (∀ s : String, ¬(s ≠ "" ∧ sIsDigits s = true) → pyInt s = 0) :=
  email_url_int_coercion [("E", "smtp://h:25/?EMAIL_USE_TLS=1&custom=abc")] "E"
    none none "smtp://h:25/?EMAIL_USE_TLS=1&custom=abc"
    [("EMAIL_FILE_PATH", Value.str ""), ("EMAIL_HOST_USER", Value.none),
     ("EMAIL_HOST_PASSWORD", Value.none), ("EMAIL_HOST", Value.str "h"),
     ("EMAIL_PORT", Value.int 25),
     ("EMAIL_BACKEND", Value.str "django.core.mail.backends.smtp.EmailBackend"),
     ("EMAIL_USE_TLS", Value.int 1),
     ("OPTIONS", Value.opts [("CUSTOM", Value.int 0)])] rfl rfl
